import Mathlib

/-!
Verification of the ez-rent orchestration / normalization core.

Shallow embedding of the core components of the `ez-rent` repository:

* the retraining decision engine
  (`src/app/prediction/model_utils/should_retrain_model.py`),
* the fuzzy best-match selection loop
  (`src/server/app/scrapers/booking_com/extractors/specific_property_extractor.py`),
* the bounded-concurrency fetch orchestrator
  (`src/app/scrapers/booking_com/processing/concurrent_scrapers.py`),
* the URL parameter cache (`src/app/utils/cache.py`),
* the per-entity hotel cache (`src/server/app/utils/cache/hotel_cache.py`),
* the locale-ambiguous price / distance parsers
  (`src/app/scrapers/booking_com/parsers/extract_price_components.py`,
   `src/server/app/scrapers/booking_com/parsers/extract_float_value.py`,
   `src/app/scrapers/booking_com/parsers/parse_distance_km.py`).

Python floats are modelled as rationals (`ℚ`), timestamps as rationals in the
unit used by the corresponding comparison (days or hours), fallible operations
as `Except` values, and the file-backed stores as explicit in-memory states.
-/

namespace EzRent

/-! ## Retraining decision engine

Embedding of `should_retrain_model`
(`src/app/prediction/model_utils/should_retrain_model.py`).  The metadata
dictionary loaded by `load_model_metadata` is modelled as an
`Option ModelMetadata` argument (`none` = no metadata file / empty dict, which
are both falsy in `if not metadata`).  `last_trained_at` is `metadata.get(...)`
and may be absent (or an empty, falsy string): both are modelled by `none`.
The trained counts are read with `.get(key, 0)`, so they are always present in
the model, defaulting to 0 at the call site.  `datetime.now()` is passed in as
`now`; timestamps and ages are measured in days. -/

structure ModelMetadata where
  last_trained_at : Option ℚ
  trained_properties_count : ℤ
  trained_hotel_details_count : ℤ
  deriving Repr, DecidableEq

/-- Embedding of `should_retrain_model(model_filename, current_properties_count,
current_hotel_details_count, min_data_increase_ratio=0.1, max_model_age_days=30)`.
The `model_filename` argument only selects which metadata file is loaded, so the
embedding takes the loaded metadata directly. -/
def should_retrain_model (metadata : Option ModelMetadata) (now : ℚ)
    (current_properties_count current_hotel_details_count : ℤ)
    (min_data_increase_ratio : ℚ) (max_model_age_days : ℚ) : Bool :=
  match metadata with
  | none => true
  | some md =>
    match md.last_trained_at with
    | none => true
    | some last_trained_at =>
      if now - last_trained_at > max_model_age_days then true
      else
        let total_trained_data_points :=
          md.trained_properties_count + md.trained_hotel_details_count
        let total_current_data_points :=
          current_properties_count + current_hotel_details_count
        if total_trained_data_points = 0 then
          if total_current_data_points > 0 then true else false
        else
          let data_increase_ratio : ℚ :=
            ((total_current_data_points : ℚ) - (total_trained_data_points : ℚ)) /
              (total_trained_data_points : ℚ)
          if total_trained_data_points > 0 ∧
              data_increase_ratio > min_data_increase_ratio then true
          else false

/-! ## Fuzzy best-match selection loop

Embedding of the candidate-selection loop of `scrape_specific_property_data`
(`src/server/app/scrapers/booking_com/extractors/specific_property_extractor.py`).
Each property card either exposes a title (`await name_elem.count() > 0`) or
not; a card is modelled as `Option String` (its stripped title).  The
`difflib.SequenceMatcher(None, a.lower(), b.lower()).ratio()` similarity is an
external library call, modelled as an explicit score function parameter
applied to the lowered strings by the caller; the loop only consumes scores. -/

/-- Accumulator of the card loop: `best_match_card` (the index of the card, if
any), `best_match_score`, `best_match_name`. -/
structure BestMatch where
  best_match_card : Option ℕ
  best_match_score : ℚ
  best_match_name : String
  deriving Repr, DecidableEq

/-- One iteration of `for i in range(num_cards_to_check)`: cards without a
title element are skipped, and the running maximum is strict
(`similarity_score > best_match_score`), so ties keep the first-seen card. -/
def scanCard (sim : String → ℚ) (acc : BestMatch) (ic : ℕ × Option String) :
    BestMatch :=
  match ic.2 with
  | none => acc
  | some name =>
    let similarity_score := sim name
    if similarity_score > acc.best_match_score then
      { best_match_card := some ic.1
        best_match_score := similarity_score
        best_match_name := name }
    else acc

/-- The whole loop: scan the first `min(count, 5)` cards starting from
`best_match_card = None`, `best_match_score = 0.0`, `best_match_name = ""`. -/
def bestMatchScan (sim : String → ℚ) (cards : List (Option String)) :
    BestMatch :=
  ((cards.take (min cards.length 5)).enum).foldl (scanCard sim) ⟨none, 0, ""⟩

/-- Outcome of `scrape_specific_property_data` after the loop:
`if best_match_card and best_match_score >= SIMILARITY_THRESHOLD` proceeds
with the selected card, otherwise the function raises
`Exception("Specific hotel ... not found or no sufficiently close match ...")`. -/
def selectSpecificProperty (sim : String → ℚ) (cards : List (Option String)) :
    Except String ℕ :=
  let b := bestMatchScan sim cards
  match b.best_match_card with
  | some i => if b.best_match_score ≥ 1/2 then Except.ok i
      else Except.error "Specific hotel not found or no sufficiently close match"
  | none =>
      Except.error "Specific hotel not found or no sufficiently close match"

/-! ## Concurrent fetch orchestrator: result aggregation

Embedding of `scrape_hotel_data_concurrent`
(`src/app/scrapers/booking_com/processing/concurrent_scrapers.py`).
`asyncio.gather(*tasks, return_exceptions=True)` returns one entry per task,
in task order, each either the task's return value or the exception it raised;
the per-URL outcome of `scrape_with_semaphore` is modelled as a function
`fetchOne : Url → Except Err Payload`.  The result loop appends every
non-exception entry to `successful_results`. -/

/-- Embedding of `completed_results = await asyncio.gather(*tasks,
return_exceptions=True)`: one outcome per URL, in submission order. -/
def gatherResults {Url Err Payload : Type} (fetchOne : Url → Except Err Payload)
    (urls : List Url) : List (Except Err Payload) :=
  urls.map fetchOne

/-- The aggregation loop: `for result in completed_results: if
isinstance(result, Exception): log else: successful_results.append(result)`. -/
def collectSuccessful {Err Payload : Type} (completed : List (Except Err Payload)) :
    List Payload :=
  completed.foldl
    (fun successful_results result =>
      match result with
      | Except.error _ => successful_results
      | Except.ok r => successful_results ++ [r])
    []

/-- Embedding of `scrape_hotel_data_concurrent(browser, urls, max_concurrent)`,
restricted to its observable result value. -/
def scrape_hotel_data_concurrent {Url Err Payload : Type}
    (fetchOne : Url → Except Err Payload) (urls : List Url) : List Payload :=
  collectSuccessful (gatherResults fetchOne urls)

/-! ## URL parameter cache

Embedding of `get_cached_url` / `cache_url` (`src/app/utils/cache.py`; the
server copy `src/server/app/utils/cache/cache_url.py` is identical).  The
backing store `./scraped/urls.csv` is modelled as a `UrlStore`: either the
file is absent (`missing`), present but unreadable/corrupt so that
`pd.read_csv` raises (`unreadable`), or a readable table of rows.  Both
functions wrap their body in `try/except` and re-raise a fresh `Exception`,
modelled by `Except.error`. -/

structure UrlRow where
  destination : String
  adults : ℤ
  rooms : ℤ
  url : String
  deriving Repr, DecidableEq

inductive UrlStore where
  | missing
  | unreadable
  | table (rows : List UrlRow)
  deriving Repr, DecidableEq

/-- The boolean row mask
`(df_urls["destination"] == destination) & (df_urls["adults"] == adults) &
(df_urls["rooms"] == rooms)`. -/
def rowMatches (destination : String) (adults rooms : ℤ) (r : UrlRow) : Bool :=
  decide (r.destination = destination) && decide (r.adults = adults) &&
    decide (r.rooms = rooms)

/-- Embedding of `get_cached_url(destination, adults, rooms)`: a missing file
returns `None`; rows are filtered by the mask and `row.iloc[0]["url"]` (the
FIRST matching row) is returned when the selection is non-empty; any exception
inside the body (for instance, `pd.read_csv` on an unreadable file) is caught
and re-raised as `Exception("Error getting cached URL: ...")`. -/
def get_cached_url (store : UrlStore) (destination : String) (adults rooms : ℤ) :
    Except String (Option String) :=
  match store with
  | .missing => Except.ok none
  | .unreadable => Except.error "Error getting cached URL"
  | .table rows =>
    match rows.filter (rowMatches destination adults rooms) with
    | [] => Except.ok none
    | r :: _ => Except.ok (some r.url)

/-- Embedding of `cache_url(destination, adults, rooms, url)`: the new row is
APPENDED to the existing table with `pd.concat` (a fresh single-row table is
written when the file is absent); reading an unreadable existing file raises,
re-raised as `Exception("Error caching URL: ...")`. -/
def cache_url (store : UrlStore) (destination : String) (adults rooms : ℤ)
    (url : String) : Except String UrlStore :=
  let new_row : UrlRow := ⟨destination, adults, rooms, url⟩
  match store with
  | .missing => Except.ok (UrlStore.table [new_row])
  | .unreadable => Except.error "Error caching URL"
  | .table rows => Except.ok (UrlStore.table (rows ++ [new_row]))

/-- The cache-check fragment of `scrape_general_data`
(`src/server/app/scrapers/booking_com/orchestrator/scrape_general_data.py`):
`cached_url = None; try: cached_url = get_cached_url(...) except Exception as
e: logger.error(...)`. -/
def checkCachedUrl (store : UrlStore) (destination : String) (adults rooms : ℤ) :
    Option String :=
  match get_cached_url store destination adults rooms with
  | Except.error _ => none
  | Except.ok v => v

/-- The branch `if cached_url and not force_refetch:` of `scrape_general_data`:
`True` takes the cached-URL path, `False` the fresh-fetch path.  Python
truthiness makes an empty string falsy. -/
def usesCachedUrl (cached_url : Option String) (force_refetch : Bool) : Bool :=
  match cached_url with
  | none => false
  | some u => decide (u ≠ "") && !force_refetch

/-! ## Entity cache (per-hotel cache)

Embedding of `cache_hotel_data` / `get_cached_hotel_data` /
`clear_expired_cache` (`src/server/app/utils/cache/hotel_cache.py`).  The
cache directory holds one JSON file per key, where the key is
`md5(f"{hotel_name.lower().strip()}_{adults}_{rooms}")`; the hash is modelled
as the hashed components themselves (`HotelKey`), i.e. md5 is treated as
injective.  The directory is modelled as an association list from keys to
entries; a write replaces the file of that key, a delete removes it.
Timestamps (`cached_at`, `datetime.now()`) are rationals measured in hours.
`PropertyListing` and `HotelDetails` payloads are opaque type parameters. -/

structure HotelKey where
  normalized_name : String
  adults : ℤ
  rooms : ℤ
  deriving Repr, DecidableEq

structure HotelCacheEntry (α β : Type) where
  cached_at : ℚ
  property_listing : α
  hotel_details : β
  deriving Repr, DecidableEq

def HotelStore (α β : Type) : Type := List (HotelKey × HotelCacheEntry α β)

/-- Reading the JSON file of a key, if present. -/
def findEntry {α β : Type} (store : HotelStore α β) (key : HotelKey) :
    Option (HotelCacheEntry α β) :=
  (store.find? (fun p => decide (p.1 = key))).map (fun p => p.2)

/-- The pure store effect of `cache_hotel_data`: write (create or fully
overwrite) the JSON file of `key` with a fresh `cached_at = datetime.now()`
timestamp. -/
def writeHotelData {α β : Type} (store : HotelStore α β) (key : HotelKey)
    (now : ℚ) (property_listing : α) (hotel_details : β) : HotelStore α β :=
  (key, ⟨now, property_listing, hotel_details⟩) ::
    store.filter (fun p => decide (p.1 ≠ key))

/-- Which I/O step of the `try` block of `cache_hotel_data` fails, if any
(`os.makedirs`, the `.dict()` serialization, `open`/`json.dump`). -/
structure CacheIOEnv where
  mkdir_fails : Bool
  serialize_fails : Bool
  write_fails : Bool
  deriving Repr, DecidableEq

/-- The `try` block of `cache_hotel_data`: each fallible I/O step either
raises or the write of the entry happens. -/
def cache_hotel_data_try {α β : Type} (env : CacheIOEnv) (store : HotelStore α β)
    (key : HotelKey) (now : ℚ) (property_listing : α) (hotel_details : β) :
    Except String (HotelStore α β) :=
  if env.mkdir_fails then Except.error "makedirs failed"
  else if env.serialize_fails then Except.error "serialization failed"
  else if env.write_fails then Except.error "write failed"
  else Except.ok (writeHotelData store key now property_listing hotel_details)

/-- Embedding of `cache_hotel_data`: the whole body is wrapped in
`try/except Exception`, the handler only logs ("Don't raise - caching failures
shouldn't break the scraper"), and the function returns `None` normally.  The
`Except` layer is what the CALLER observes: an uncaught exception would be
`Except.error`. -/
def cache_hotel_data {α β : Type} (env : CacheIOEnv) (store : HotelStore α β)
    (key : HotelKey) (now : ℚ) (property_listing : α) (hotel_details : β) :
    Except String (HotelStore α β) :=
  match cache_hotel_data_try env store key now property_listing hotel_details with
  | Except.ok s => Except.ok s
  | Except.error _ => Except.ok store

/-- The tail of `scrape_specific_property_data`
(`src/server/app/scrapers/booking_com/extractors/specific_property_extractor.py`)
after a successful detail scrape: `cache_hotel_data(...)` is invoked and then
`(target_property_listing, target_hotel_details)` is returned; an exception
escaping `cache_hotel_data` would propagate out of the scrape run as
`Except.error`. -/
def finishSpecificScrape {α β : Type} (env : CacheIOEnv) (store : HotelStore α β)
    (key : HotelKey) (now : ℚ) (property_listing : α) (hotel_details : β) :
    Except String (α × β) × HotelStore α β :=
  match cache_hotel_data env store key now property_listing hotel_details with
  | Except.ok s => (Except.ok (property_listing, hotel_details), s)
  | Except.error e => (Except.error e, store)

/-- Embedding of `get_cached_hotel_data(hotel_name, adults, rooms,
max_age_hours=24)`: a missing file is `None`; otherwise the entry age
`datetime.now() - cached_at` is compared against `timedelta(hours=max_age_hours)`
and an expired entry is DELETED (`os.remove`) before returning `None`; a fresh
entry returns the reconstructed `(PropertyListing, HotelDetails)` pair.  The
function returns the result together with the store it leaves behind. -/
def get_cached_hotel_data {α β : Type} (store : HotelStore α β) (key : HotelKey)
    (now : ℚ) (max_age_hours : ℚ) : Option (α × β) × HotelStore α β :=
  match store.find? (fun p => decide (p.1 = key)) with
  | none => (none, store)
  | some pr =>
    if now - pr.2.cached_at > max_age_hours then
      (none, store.filter (fun p => decide (p.1 ≠ key)))
    else
      (some (pr.2.property_listing, pr.2.hotel_details), store)

/-- Embedding of `clear_expired_cache(max_age_hours=24)`: sweeps every entry,
removes those with `cached_at < cutoff_time` where
`cutoff_time = datetime.now() - timedelta(hours=max_age_hours)`, and returns
the removed count. -/
def clear_expired_cache {α β : Type} (store : HotelStore α β)
    (now : ℚ) (max_age_hours : ℚ) : ℕ × HotelStore α β :=
  let expired := fun (p : HotelKey × HotelCacheEntry α β) =>
    decide (p.2.cached_at < now - max_age_hours)
  ((store.filter expired).length, store.filter (fun p => !expired p))

/-! ## Python string primitives

Strings are worked with as `List Char`.  The inputs handled by the parsers are
ASCII apart from the non-breaking space ` `, which the code normalizes
away first, so `str.lower` / `str.upper` / `str.strip` are embedded at ASCII
precision. -/

/-- The characters Python's `str.strip()` and the regex class `\s` treat as
whitespace (ASCII range: space, tab, newline, carriage return, vertical tab,
form feed). -/
def pyIsSpace (c : Char) : Bool :=
  decide (c = ' ') || decide (c = '\t') || decide (c = '\n') ||
    decide (c = '\r') || decide (c = Char.ofNat 11) || decide (c = Char.ofNat 12)

/-- ASCII `str.lower` on one character. -/
def toLowerChar (c : Char) : Char :=
  if 'A' ≤ c ∧ c ≤ 'Z' then Char.ofNat (c.toNat + 32) else c

/-- ASCII `str.upper` on one character. -/
def toUpperChar (c : Char) : Char :=
  if 'a' ≤ c ∧ c ≤ 'z' then Char.ofNat (c.toNat - 32) else c

/-- `str.strip()`: drop whitespace from both ends. -/
def pyStrip (l : List Char) : List Char :=
  ((l.dropWhile pyIsSpace).reverse.dropWhile pyIsSpace).reverse

/-- `.replace(" ", " ")`: normalize the narrow no-break space. -/
def normalizeSpaces (l : List Char) : List Char :=
  l.map (fun c => if c = Char.ofNat 8239 then ' ' else c)

/-- The regex class `\d`. -/
def isDigit (c : Char) : Bool := decide ('0' ≤ c) && decide (c ≤ '9')

/-- Python's substring test `needle in hay` (an empty needle is contained in
everything). -/
def containsSub (needle : List Char) : List Char → Bool
  | [] => needle.isEmpty
  | c :: rest => needle.isPrefixOf (c :: rest) || containsSub needle rest

/-- `s.replace(a, "")` for a single-character needle. -/
def removeAll (l : List Char) (a : Char) : List Char :=
  l.filter (fun c => decide (c ≠ a))

/-- `s.replace(a, b)` for single-character needle and replacement. -/
def replaceChar (l : List Char) (a b : Char) : List Char :=
  l.map (fun c => if c = a then b else c)

/-- `s.rfind(a)`: index of the last occurrence (`none` embeds Python's `-1`). -/
def pyRfind (l : List Char) (a : Char) : Option ℕ :=
  match l.reverse.findIdx? (fun c => decide (c = a)) with
  | none => none
  | some j => some (l.length - 1 - j)

/-! ## The shared numeric-literal regex

Both `extract_price_components`
(`src/app/scrapers/booking_com/parsers/extract_price_components.py`) and
`extract_float_value`
(`src/server/app/scrapers/booking_com/parsers/extract_float_value.py`) search
for the number pattern

  `\d{1,3}(?:[.,\s]?\d{3})*(?:[.,]\d{1,2})?`

with `re.search`.  Because everything after each sub-pattern of the number is
optional (and the price regex only wraps it in optional currency/whitespace
pieces), Python's leftmost, greedy, backtracking semantics reduce to a
deterministic greedy scan for it: the first DFS success always takes the
longest available step.  The matchers below implement exactly that scan; each
returns the matched characters together with the unconsumed rest. -/

/-- The star `(?:[.,\s]?\d{3})*`, greedily: each iteration prefers a present
separator, and needs exactly three digits after the optional separator. -/
def starGroups : List Char → List Char × List Char
  | c :: d1 :: d2 :: d3 :: rest =>
    if (decide (c = '.') || decide (c = ',') || pyIsSpace c) &&
        (isDigit d1 && isDigit d2 && isDigit d3) then
      let (m, r) := starGroups rest
      (c :: d1 :: d2 :: d3 :: m, r)
    else if isDigit c && isDigit d1 && isDigit d2 then
      let (m, r) := starGroups (d3 :: rest)
      (c :: d1 :: d2 :: m, r)
    else ([], c :: d1 :: d2 :: d3 :: rest)
  | [c, d1, d2] =>
    if isDigit c && isDigit d1 && isDigit d2 then ([c, d1, d2], [])
    else ([], [c, d1, d2])
  | l => ([], l)

/-- The optional fractional tail `(?:[.,]\d{1,2})?`, greedily (two digits
preferred over one, presence preferred over absence). -/
def fracTail : List Char → List Char × List Char
  | p :: d1 :: d2 :: rest =>
    if (decide (p = '.') || decide (p = ',')) && isDigit d1 then
      if isDigit d2 then ([p, d1, d2], rest) else ([p, d1], d2 :: rest)
    else ([], p :: d1 :: d2 :: rest)
  | [p, d1] =>
    if (decide (p = '.') || decide (p = ',')) && isDigit d1 then ([p, d1], [])
    else ([], [p, d1])
  | l => ([], l)

/-- Matching the number pattern anchored at the current position: `\d{1,3}`
takes `min(3, run of leading digits)` (greedy; all following pieces are
optional, so the first DFS success keeps the greedy choice), then the star,
then the fractional tail. -/
def matchNumAt (l : List Char) : Option (List Char × List Char) :=
  let run := (l.takeWhile isDigit).length
  let d := min run 3
  if d = 0 then none
  else
    let pre := l.take d
    let (starM, rest1) := starGroups (l.drop d)
    let (fracM, rest2) := fracTail rest1
    some (pre ++ starM ++ fracM, rest2)

/-- `re.search(number_pattern, s)`: try every position left to right. -/
def numSearch : List Char → Option (List Char)
  | [] => none
  | c :: rest =>
    match matchNumAt (c :: rest) with
    | some (m, _) => some m
    | none => numSearch rest

/-! ## The currency pattern of the price regex

`currency_pattern = [€$£¥₹₽]|LKR|USD|EUR|GBP|AUD|CAD|CHF|CNY|SEK|NZD|MXN|SGD|
HKD|NOK|KRW|TRY|RUB|INR|BRL|ZAR|Rs\.?`, matched with `re.IGNORECASE`. -/

def currencySymbols : List Char := ['€', '$', '£', '¥', '₹', '₽']

def currencyCodes : List (List Char) :=
  ["LKR", "USD", "EUR", "GBP", "AUD", "CAD", "CHF", "CNY", "SEK", "NZD",
   "MXN", "SGD", "HKD", "NOK", "KRW", "TRY", "RUB", "INR", "BRL",
   "ZAR"].map String.toList

/-- Case-insensitive literal prefix match, returning the matched input
characters (with their original case, as `re` groups do) and the rest. -/
def ciPrefix (pat : List Char) (l : List Char) : Option (List Char × List Char) :=
  match pat, l with
  | [], rest => some ([], rest)
  | _ :: _, [] => none
  | p :: ps, c :: cs =>
    if toLowerChar c = toLowerChar p then
      (ciPrefix ps cs).map (fun mr => (c :: mr.1, mr.2))
    else none

/-- All ways the currency alternation can match at the current position, in
regex alternation order (character class first, then the codes in source
order, then `Rs\.?` preferring the dotted form). -/
def curAlternatives (l : List Char) : List (List Char × List Char) :=
  (match l with
   | c :: rest => if currencySymbols.contains c then [([c], rest)] else []
   | [] => []) ++
  currencyCodes.filterMap (fun code => ciPrefix code l) ++
  (match ciPrefix ['R', 's'] l with
   | none => []
   | some (m, rest) =>
     match rest with
     | '.' :: rest2 => [(m ++ ['.'], rest2), (m, rest)]
     | _ => [(m, rest)])

def dropSpacesPy (l : List Char) : List Char := l.dropWhile pyIsSpace

/-- Matching
`({currency_pattern})?\s*({number_pattern})\s*({currency_pattern})?`
anchored at the current position, returning `(group 1, group 2, group 3)`.
The optional group 1 prefers each currency alternative (in order) over
absence; `\s*` never needs to backtrack because neither a digit nor a
currency token starts with whitespace; group 3 takes the first currency
alternative after the number, if any. -/
def fullMatchAt (l : List Char) :
    Option (Option (List Char) × List Char × Option (List Char)) :=
  let tryNum := fun (g1 : Option (List Char)) (l2 : List Char) =>
    match matchNumAt (dropSpacesPy l2) with
    | some (num, rest) =>
      let g3 := ((curAlternatives (dropSpacesPy rest)).head?).map (fun a => a.1)
      some (g1, num, g3)
    | none => none
  (((curAlternatives l).filterMap
      (fun alt => tryNum (some alt.1) alt.2)).head?).orElse
    (fun _ => tryNum none l)

/-- `re.search(full_pattern, s, re.IGNORECASE)`. -/
def fullSearch : List Char →
    Option (Option (List Char) × List Char × Option (List Char))
  | [] => fullMatchAt []
  | c :: rest => (fullMatchAt (c :: rest)).orElse (fun _ => fullSearch rest)

/-! ## Separator disambiguation and float conversion -/

/-- The decimal/thousands disambiguation block of `extract_price_components`
and `extract_float_value`, applied to `cleaned_number_str` (the matched
literal with spaces removed). -/
def processNumber (cleaned : List Char) : List Char :=
  match pyRfind cleaned '.', pyRfind cleaned ',' with
  | none, none => cleaned
  | some last_dot_idx, some last_comma_idx =>
    if last_comma_idx > last_dot_idx then
      replaceChar (removeAll cleaned '.') ',' '.'
    else removeAll cleaned ','
  | some last_dot_idx, none =>
    if cleaned.length - 1 - last_dot_idx ≤ 2 then cleaned
    else removeAll cleaned '.'
  | none, some last_comma_idx =>
    if cleaned.length - 1 - last_comma_idx ≤ 2 then replaceChar cleaned ',' '.'
    else removeAll cleaned ','

/-- Value of a digit string. -/
def digitsVal (l : List Char) : ℕ :=
  l.foldl (fun acc c => acc * 10 + (c.toNat - '0'.toNat)) 0

/-- Python's `float(s)` on the strings reachable here (digits and dots; the
processed literal never contains a sign, exponent, or underscore): at most one
dot and at least one digit parse as a decimal, anything else raises
`ValueError` (`none`). -/
def pyFloat (l : List Char) : Option ℚ :=
  if !(l.all fun c => isDigit c || decide (c = '.')) then none
  else if l.count '.' = 0 then
    if l.isEmpty then none else some (digitsVal l)
  else if l.count '.' = 1 then
    let intPart := l.takeWhile (fun c => decide (c ≠ '.'))
    let fracPart := (l.dropWhile (fun c => decide (c ≠ '.'))).tail
    if intPart.isEmpty && fracPart.isEmpty then none
    else some ((digitsVal intPart : ℚ) +
      (digitsVal fracPart : ℚ) / (10 : ℚ) ^ fracPart.length)
  else none

/-! ## The price parser -/

def taxesPhrase : List Char := "includes taxes and charges".toList

/-- The tail of `extract_price_components` once `found_number_str` and
`currency_symbol` are known: empty literal returns `(0.0, currency)`; spaces
are removed, the separator block runs, and `float(...)` either succeeds or its
`ValueError` is caught, yielding `(0.0, currency)`. -/
def convertFound (found currency_symbol : List Char) : Option ℚ × List Char :=
  if found.isEmpty then (some 0, currency_symbol)
  else
    let cleaned_number_str := found.filter (fun c => decide (c ≠ ' '))
    match pyFloat (processNumber cleaned_number_str) with
    | some result_value => (some result_value, currency_symbol)
    | none => (some 0, currency_symbol)

/-- `currency_symbol.startswith("RS")` (after upper-casing). -/
def startsWithRS (l : List Char) : Bool :=
  match l with
  | 'R' :: 'S' :: _ => true
  | _ => false

/-- Embedding of `extract_price_components(price_string)`
(`src/app/scrapers/booking_com/parsers/extract_price_components.py`).
`none` input models a non-string argument.  The returned currency is a string
(possibly empty), the value is `none` exactly when no number is recoverable. -/
def extract_price_components (price_string : Option (List Char)) :
    Option ℚ × List Char :=
  match price_string with
  | none => (none, [])
  | some s0 =>
    let s := pyStrip (normalizeSpaces s0)
    let m := fullSearch s
    if containsSub taxesPhrase (s.map toLowerChar) && m.isNone then (some 0, [])
    else
      match m with
      | none =>
        match numSearch s with
        | none => (none, [])
        | some found_number_str => convertFound found_number_str []
      | some (g1, found_number_str, g3) =>
        let currency_symbol_found := g1.orElse (fun _ => g3)
        let cur0 := match currency_symbol_found with
          | none => []
          | some cur => cur.map toUpperChar
        let currency_symbol :=
          if !cur0.isEmpty && startsWithRS cur0 then "LKR".toList else cur0
        convertFound found_number_str currency_symbol

/-! ## The magnitude parser and the distance parser -/

/-- Embedding of `extract_float_value(value_string)`
(`src/server/app/scrapers/booking_com/parsers/extract_float_value.py`): the
same number search and separator block, magnitude only, `ValueError` and "no
number" both yield `none`. -/
def extract_float_value (value_string : Option (List Char)) : Option ℚ :=
  match value_string with
  | none => none
  | some s0 =>
    let s := pyStrip (normalizeSpaces s0)
    match numSearch s with
    | none => none
    | some found_number_str =>
      if found_number_str.isEmpty then none
      else
        let cleaned_number_str :=
          found_number_str.filter (fun c => decide (c ≠ ' '))
        pyFloat (processNumber cleaned_number_str)

/-- The unit test of `parse_distance_km`: `" m" in text or " meters" in text`
(on the lowered, stripped text). -/
def mUnitMarker (text : List Char) : Bool :=
  containsSub " m".toList text || containsSub " meters".toList text

/-- A km unit marker, following the specification's words (the source has no
such check): the lowered text contains `" km"`.  Used only to state the
specification's claimed exclusion. -/
def claimKmMarker (text : List Char) : Bool := containsSub " km".toList text

/-- Embedding of `parse_distance_km(value_string)`
(`src/app/scrapers/booking_com/parsers/parse_distance_km.py`): `if not
value_string` rejects `None` and the empty string; the text is lowered and
stripped; a `"beachfront"` substring short-circuits to `0.0`; otherwise the
extracted magnitude is divided by 1000 when `" m"` or `" meters"` occurs in
the text. -/
def parse_distance_km (value_string : Option (List Char)) : Option ℚ :=
  match value_string with
  | none => none
  | some s0 =>
    if s0.isEmpty then none
    else
      let text := pyStrip (s0.map toLowerChar)
      if containsSub "beachfront".toList text then some 0
      else
        match extract_float_value (some text) with
        | none => none
        | some value =>
          if mUnitMarker text then some (value / 1000) else some value

/-! ## Concurrent fetch orchestrator: the semaphore bound

Small-step model of the concurrency structure of
`scrape_hotel_data_concurrent`
(`src/app/scrapers/booking_com/processing/concurrent_scrapers.py`):
`semaphore = asyncio.Semaphore(max_concurrent)` and every task's body runs
entirely inside `async with semaphore`.  A task is `pending` until it acquires
the semaphore, `running` (in flight: browser context open, fetch under way)
while it holds it, and `done` after the `finally` block releases it.  The
event loop may interleave the tasks arbitrarily; `PoolStep` is that
nondeterminism.  `avail` is the semaphore's internal counter: `acquire`
requires it to be positive and decrements it, `release` increments it. -/

inductive TaskPhase where
  | pending
  | running
  | done
  deriving Repr, DecidableEq

structure PoolState where
  phases : List TaskPhase
  avail : ℕ
  deriving Repr, DecidableEq

/-- Initial state: all tasks created by `asyncio.gather`, none scheduled yet;
the semaphore holds `max_concurrent` permits. -/
def initPool (numTasks max_concurrent : ℕ) : PoolState :=
  ⟨List.replicate numTasks TaskPhase.pending, max_concurrent⟩

/-- One scheduler step: either a pending task enters `async with semaphore`
(possible only when a permit is available), or a running task finishes (its
`finally` block closes the page/context and releases the permit — on success
and failure alike). -/
inductive PoolStep : PoolState → PoolState → Prop where
  | acquire (s : PoolState) (i : ℕ)
      (h : s.phases.get? i = some TaskPhase.pending) (ha : 0 < s.avail) :
      PoolStep s ⟨s.phases.set i TaskPhase.running, s.avail - 1⟩
  | release (s : PoolState) (i : ℕ)
      (h : s.phases.get? i = some TaskPhase.running) :
      PoolStep s ⟨s.phases.set i TaskPhase.done, s.avail + 1⟩

/-- Number of simultaneously in-flight tasks. -/
def inFlight (s : PoolState) : ℕ :=
  s.phases.countP (fun p => decide (p = TaskPhase.running))

/-! # Theorems -/

/-! ## Helper lemmas -/

/-- The aggregation loop of `scrape_hotel_data_concurrent` is `filterMap` of
the success projection. -/
theorem collectSuccessful_eq_filterMap {Err Payload : Type}
    (completed : List (Except Err Payload)) :
    collectSuccessful completed = completed.filterMap Except.toOption := by
  suffices h : ∀ acc : List Payload,
      completed.foldl
        (fun successful_results result =>
          match result with
          | Except.error _ => successful_results
          | Except.ok r => successful_results ++ [r])
        acc = acc ++ completed.filterMap Except.toOption by
    simpa [collectSuccessful] using h []
  induction completed with
  | nil => simp
  | cons hd tl ih =>
    intro acc
    cases hd with
    | error e => simp [List.filterMap_cons, Except.toOption, ih acc]
    | ok r => simp [List.filterMap_cons, Except.toOption, ih (acc ++ [r])]

theorem length_filterMap_toOption {Err Payload : Type}
    (completed : List (Except Err Payload)) :
    (completed.filterMap Except.toOption).length
      = completed.countP Except.isOk := by
  induction completed with
  | nil => simp
  | cons hd tl ih =>
    cases hd with
    | error e =>
      simp [List.filterMap_cons, List.countP_cons, Except.toOption, Except.isOk,
        Except.toBool, ih]
    | ok r =>
      simp [List.filterMap_cons, List.countP_cons, Except.toOption, Except.isOk,
        Except.toBool, ih]

theorem map_subst_self (l : List Char) (a : Char) :
    l.map (fun c => if c = a then a else c) = l := by
  induction l with
  | nil => rfl
  | cons c t ih =>
    by_cases h : c = a <;> simp [h, ih]

/-- The running maximum of the card loop stays below any bound that all
scanned scores and the initial accumulator satisfy. -/
theorem foldl_scanCard_lt (sim : String → ℚ) (q : ℚ) :
    ∀ (l : List (ℕ × Option String)) (acc : BestMatch),
      acc.best_match_score < q →
      (∀ p ∈ l, ∀ name, p.2 = some name → sim name < q) →
      (l.foldl (scanCard sim) acc).best_match_score < q := by
  intro l
  induction l with
  | nil => intro acc hacc _; simpa using hacc
  | cons hd tl ih =>
    intro acc hacc hl
    simp only [List.foldl_cons]
    apply ih
    · unfold scanCard
      cases hhd : hd.2 with
      | none => simpa using hacc
      | some name =>
        by_cases hgt : sim name > acc.best_match_score
        · simpa [hgt] using hl hd (by simp) name hhd
        · simpa [hgt] using hacc
    · intro p hp name hname
      exact hl p (by simp [hp]) name hname

/-! ## Claim C5: fuzzy resolver fails below threshold -/

/-- C5: for every target and candidate list, when the best similarity score
over the scanned candidates (the first `min(count, 5)` cards) is strictly
below the 0.5 threshold, the identification step fails explicitly (an
exception, not a fallback candidate).  In particular a best score of 0.49
against the 0.5 threshold yields no match. -/
theorem c5_fuzzy_below_threshold_fails :
    (∀ (sim : String → ℚ) (cards : List (Option String)),
      (∀ name, some name ∈ cards.take (min cards.length 5) → sim name < 1/2) →
      selectSpecificProperty sim cards
        = Except.error "Specific hotel not found or no sufficiently close match")
  ∧ selectSpecificProperty (fun _ => 49/100) [some "Grand Oriental Hotel"]
      = Except.error "Specific hotel not found or no sufficiently close match" := by
  have hmain : ∀ (sim : String → ℚ) (cards : List (Option String)),
      (∀ name, some name ∈ cards.take (min cards.length 5) → sim name < 1/2) →
      selectSpecificProperty sim cards
        = Except.error "Specific hotel not found or no sufficiently close match" := by
    intro sim cards hlt
    have hscore : (bestMatchScan sim cards).best_match_score < 1/2 := by
      apply foldl_scanCard_lt sim (1/2)
      · norm_num
      · intro p hp name hname
        apply hlt
        have h2 : (cards.take (min cards.length 5))[p.1]? = some p.2 :=
          List.mem_enum_iff_getElem?.mp hp
        rw [hname] at h2
        exact List.getElem?_mem h2
    have hn : ¬ ((2⁻¹ : ℚ) ≤ (bestMatchScan sim cards).best_match_score) := by
      rw [inv_eq_one_div]
      linarith
    simp only [selectSpecificProperty]
    cases hcard : (bestMatchScan sim cards).best_match_card with
    | none => rfl
    | some i => simp [hn]
  refine ⟨hmain, hmain _ _ ?_⟩
  intro name _
  norm_num

/-! ## Claim C6: concurrent orchestrator returns exactly the successes -/

/-- C6: the orchestrator's result is exactly the payloads of the tasks whose
fetch succeeded, in task order — a failing task is excluded without affecting
its siblings' entries; the empty task list yields the empty result; and 10
tasks of which 3 fail yield exactly 7 payloads. -/
theorem c6_concurrent_successes_only :
    (∀ (Url Err Payload : Type) (fetchOne : Url → Except Err Payload)
        (urls : List Url),
      scrape_hotel_data_concurrent fetchOne urls
        = urls.filterMap (fun u => (fetchOne u).toOption))
  ∧ (∀ (Url Err Payload : Type) (fetchOne : Url → Except Err Payload),
      scrape_hotel_data_concurrent fetchOne ([] : List Url) = [])
  ∧ (∀ (Url Err Payload : Type) (fetchOne : Url → Except Err Payload)
        (urls : List Url),
      (scrape_hotel_data_concurrent fetchOne urls).length
        = urls.countP (fun u => (fetchOne u).isOk))
  ∧ (scrape_hotel_data_concurrent
      (fun n : ℕ =>
        if n = 1 ∨ n = 4 ∨ n = 7 then Except.error "network error"
        else Except.ok n)
      (List.range 10)).length = 7 := by
  have hmain : ∀ (Url Err Payload : Type) (fetchOne : Url → Except Err Payload)
      (urls : List Url),
      scrape_hotel_data_concurrent fetchOne urls
        = urls.filterMap (fun u => (fetchOne u).toOption) := by
    intro Url Err Payload fetchOne urls
    unfold scrape_hotel_data_concurrent gatherResults
    rw [collectSuccessful_eq_filterMap, List.filterMap_map]
    rfl
  refine ⟨hmain, ?_, ?_, ?_⟩
  · intro Url Err Payload fetchOne
    rw [hmain]
    rfl
  · intro Url Err Payload fetchOne urls
    rw [hmain]
    have h1 : (urls.map fetchOne).filterMap Except.toOption
        = urls.filterMap (fun u => (fetchOne u).toOption) := by
      rw [List.filterMap_map]; rfl
    have h2 : (urls.map fetchOne).countP Except.isOk
        = urls.countP (fun u => (fetchOne u).isOk) := by
      rw [List.countP_map]; rfl
    rw [← h1, ← h2, length_filterMap_toOption]
  · rfl

/-! ## Claim C4: parameter cache lookup on a corrupt store -/

/-- C4 counterexample: the claim says a lookup on a missing, unreadable or
corrupt backing store returns `None` and never raises, but `get_cached_url`
on an unreadable store raises an `Exception` (it does not return `ok none`). -/
theorem c4_counterexample_lookup_raises :
    get_cached_url UrlStore.unreadable "colombo" 2 1 ≠ Except.ok none
  ∧ (∃ e, get_cached_url UrlStore.unreadable "colombo" 2 1 = Except.error e) := by
  exact ⟨by simp [get_cached_url], ⟨_, rfl⟩⟩

/-- C4 amended: `get_cached_url` returns `None` only when the backing file is
MISSING (or no row matches); when the file exists but is unreadable/corrupt it
RAISES.  The caller `scrape_general_data` wraps the call in `try/except`,
leaves `cached_url = None` on an exception, and `if cached_url and not
force_refetch` then takes the fresh-fetch path — so a cache read failure still
degrades to a cache miss at the orchestrator level and never blocks the
fresh fetch. -/
theorem c4_amended_caller_recovers :
    (∀ d (a r : ℤ), get_cached_url UrlStore.missing d a r = Except.ok none)
  ∧ (∀ store d (a r : ℤ) e, get_cached_url store d a r = Except.error e →
      checkCachedUrl store d a r = none)
  ∧ (∀ force, usesCachedUrl none force = false)
  ∧ (∀ d (a r : ℤ) force,
      usesCachedUrl (checkCachedUrl UrlStore.unreadable d a r) force = false) := by
  refine ⟨fun d a r => rfl, ?_, fun force => rfl, fun d a r force => rfl⟩
  intro store d a r e h
  unfold checkCachedUrl
  rw [h]

/-! ## Claim C9: URL cache writes are appends, reads first-match -/

/-- C9 counterexample: the claim says a store under an existing key overwrites
so that lookups return the most recently stored value; but `cache_url` appends
a fresh row and `get_cached_url` returns `row.iloc[0]` — the EARLIEST matching
row — so the second store of `"colombo"` is invisible to lookups. -/
theorem c9_counterexample_first_writer_wins :
    cache_url (UrlStore.table [⟨"colombo", 2, 1, "https://b.example/old"⟩])
        "colombo" 2 1 "https://b.example/new"
      = Except.ok (UrlStore.table
          [⟨"colombo", 2, 1, "https://b.example/old"⟩,
           ⟨"colombo", 2, 1, "https://b.example/new"⟩])
  ∧ get_cached_url
        (UrlStore.table
          [⟨"colombo", 2, 1, "https://b.example/old"⟩,
           ⟨"colombo", 2, 1, "https://b.example/new"⟩]) "colombo" 2 1
      = Except.ok (some "https://b.example/old")
  ∧ "https://b.example/old" ≠ "https://b.example/new" := by
  exact ⟨rfl, rfl, by decide⟩

/-- C9 amended: a write APPENDS a row (creating the table when the file is
missing), and a lookup returns the url of the FIRST matching row; hence after
storing a new url under an existing key, lookups keep returning the first
value ever stored under that key (first-writer-wins, not last-writer-wins). -/
theorem c9_amended_append_first_match :
    ∀ (rows : List UrlRow) (d : String) (a r : ℤ) (url : String),
      cache_url (UrlStore.table rows) d a r url
        = Except.ok (UrlStore.table (rows ++ [⟨d, a, r, url⟩]))
      ∧ get_cached_url (UrlStore.table (rows ++ [⟨d, a, r, url⟩])) d a r
        = Except.ok (some (match rows.filter (rowMatches d a r) with
            | [] => url
            | r0 :: _ => r0.url)) := by
  intro rows d a r url
  refine ⟨rfl, ?_⟩
  have hm : rowMatches d a r ⟨d, a, r, url⟩ = true := by
    simp [rowMatches]
  simp only [get_cached_url, List.filter_append]
  cases h : rows.filter (rowMatches d a r) with
  | nil => simp [h, hm]
  | cons r0 rest => simp [h, hm]

/-! ## Claim C10: entity cache store never raises -/

/-- C10: `cache_hotel_data` returns normally for every I/O failure
configuration — the caller-visible result is always `ok`; when the `try`
block fails the store is left unchanged; hence the enclosing scrape run
(`scrape_specific_property_data`) still returns its scraped payload whatever
the caching I/O does.  The failure configurations are non-vacuous: a failing
write makes the raw body raise. -/
theorem c10_cache_store_never_raises :
    (∀ (α β : Type) (env : CacheIOEnv) (store : HotelStore α β) (key : HotelKey)
        (now : ℚ) (pl : α) (hd : β),
      (cache_hotel_data env store key now pl hd).isOk = true)
  ∧ (∀ (α β : Type) (env : CacheIOEnv) (store : HotelStore α β) (key : HotelKey)
        (now : ℚ) (pl : α) (hd : β) e,
      cache_hotel_data_try env store key now pl hd = Except.error e →
      cache_hotel_data env store key now pl hd = Except.ok store)
  ∧ (∀ (α β : Type) (env : CacheIOEnv) (store : HotelStore α β) (key : HotelKey)
        (now : ℚ) (pl : α) (hd : β),
      (finishSpecificScrape env store key now pl hd).1 = Except.ok (pl, hd))
  ∧ (∃ e, cache_hotel_data_try ⟨false, false, true⟩ ([] : HotelStore Unit Unit)
      ⟨"hotel", 1, 1⟩ 0 () () = Except.error e) := by
  refine ⟨?_, ?_, ?_, ⟨_, rfl⟩⟩
  · intro α β env store key now pl hd
    unfold cache_hotel_data
    cases cache_hotel_data_try env store key now pl hd <;> rfl
  · intro α β env store key now pl hd e h
    unfold cache_hotel_data
    rw [h]
  · intro α β env store key now pl hd
    unfold finishSpecificScrape cache_hotel_data
    cases cache_hotel_data_try env store key now pl hd <;> rfl

/-! ## Claim C2: retraining decision -/

/-- C2: `should_retrain_model` returns `true` iff the metadata is absent, or
its last-trained timestamp is missing, or the model is older than
`max_model_age_days`, or the trained total is zero while the current total is
positive, or the trained total is positive and the relative data increase
strictly exceeds `min_data_increase_ratio`.  In particular, with a fresh
model trained on 100 points and the default thresholds: shrinkage to 90 and a
5% increase to 105 do not retrain, a 15% increase to 115 does, and a
40-day-old model does. -/
theorem c2_retraining_decision :
    (∀ (now : ℚ) (cp ch : ℤ) (mr ma : ℚ),
      should_retrain_model none now cp ch mr ma = true)
  ∧ (∀ (md : ModelMetadata) (now : ℚ) (cp ch : ℤ) (mr ma : ℚ),
      should_retrain_model (some md) now cp ch mr ma = true ↔
        (md.last_trained_at = none
         ∨ (∃ t, md.last_trained_at = some t ∧ now - t > ma)
         ∨ (md.trained_properties_count + md.trained_hotel_details_count = 0
             ∧ cp + ch > 0)
         ∨ (md.trained_properties_count + md.trained_hotel_details_count > 0
             ∧ (((cp + ch : ℤ) : ℚ)
                 - ((md.trained_properties_count
                     + md.trained_hotel_details_count : ℤ) : ℚ))
                 / ((md.trained_properties_count
                     + md.trained_hotel_details_count : ℤ) : ℚ)
                 > mr)))
  ∧ should_retrain_model (some ⟨some 0, 60, 40⟩) 0 50 40 (1/10) 30 = false
  ∧ should_retrain_model (some ⟨some 0, 60, 40⟩) 0 65 40 (1/10) 30 = false
  ∧ should_retrain_model (some ⟨some 0, 60, 40⟩) 0 75 40 (1/10) 30 = true
  ∧ should_retrain_model (some ⟨some 0, 60, 40⟩) 40 65 40 (1/10) 30 = true := by
  have hiff : ∀ (md : ModelMetadata) (now : ℚ) (cp ch : ℤ) (mr ma : ℚ),
      should_retrain_model (some md) now cp ch mr ma = true ↔
        (md.last_trained_at = none
         ∨ (∃ t, md.last_trained_at = some t ∧ now - t > ma)
         ∨ (md.trained_properties_count + md.trained_hotel_details_count = 0
             ∧ cp + ch > 0)
         ∨ (md.trained_properties_count + md.trained_hotel_details_count > 0
             ∧ (((cp + ch : ℤ) : ℚ)
                 - ((md.trained_properties_count
                     + md.trained_hotel_details_count : ℤ) : ℚ))
                 / ((md.trained_properties_count
                     + md.trained_hotel_details_count : ℤ) : ℚ)
                 > mr)) := by
    rintro ⟨lta, tp, th⟩ now cp ch mr ma
    cases lta with
    | none => simp [should_retrain_model]
    | some t =>
      simp only [should_retrain_model]
      by_cases h1 : now - t > ma
      · rw [if_pos h1]
        constructor
        · intro _
          exact Or.inr (Or.inl ⟨t, rfl, h1⟩)
        · intro _
          rfl
      · rw [if_neg h1]
        by_cases h2 : tp + th = 0
        · rw [if_pos h2]
          by_cases h3 : cp + ch > 0
          · rw [if_pos h3]
            constructor
            · intro _
              exact Or.inr (Or.inr (Or.inl ⟨h2, h3⟩))
            · intro _
              rfl
          · rw [if_neg h3]
            constructor
            · intro hcontra
              exact absurd hcontra (by simp)
            · rintro (hn | ⟨t', ht', hgt⟩ | ⟨_, hpos⟩ | ⟨hpos, _⟩)
              · exact Option.noConfusion hn
              · injection ht' with ht''
                rw [← ht''] at hgt
                exact absurd hgt h1
              · exact absurd hpos h3
              · rw [h2] at hpos
                exact absurd hpos (by norm_num)
        · rw [if_neg h2]
          by_cases h4 : tp + th > 0 ∧
              (((cp + ch : ℤ) : ℚ) - ((tp + th : ℤ) : ℚ)) / ((tp + th : ℤ) : ℚ)
                > mr
          · rw [if_pos h4]
            constructor
            · intro _
              exact Or.inr (Or.inr (Or.inr h4))
            · intro _
              rfl
          · rw [if_neg h4]
            constructor
            · intro hcontra
              exact absurd hcontra (by simp)
            · rintro (hn | ⟨t', ht', hgt⟩ | ⟨hz, _⟩ | h4')
              · exact Option.noConfusion hn
              · injection ht' with ht''
                rw [← ht''] at hgt
                exact absurd hgt h1
              · exact absurd hz h2
              · exact absurd h4' h4
  refine ⟨fun now cp ch mr ma => rfl, hiff, ?_, ?_, ?_, ?_⟩
  · cases h : should_retrain_model (some ⟨some 0, 60, 40⟩) 0 50 40 (1/10) 30 with
    | false => rfl
    | true =>
      exfalso
      rcases (hiff _ _ _ _ _ _).mp h with hn | ⟨t, ht, hgt⟩ | ⟨hz, _⟩ | ⟨_, hr⟩
      · exact Option.noConfusion hn
      · injection ht with ht'
        rw [← ht'] at hgt
        norm_num at hgt
      · norm_num at hz
      · norm_num at hr
  · cases h : should_retrain_model (some ⟨some 0, 60, 40⟩) 0 65 40 (1/10) 30 with
    | false => rfl
    | true =>
      exfalso
      rcases (hiff _ _ _ _ _ _).mp h with hn | ⟨t, ht, hgt⟩ | ⟨hz, _⟩ | ⟨_, hr⟩
      · exact Option.noConfusion hn
      · injection ht with ht'
        rw [← ht'] at hgt
        norm_num at hgt
      · norm_num at hz
      · norm_num at hr
  · exact (hiff _ _ _ _ _ _).mpr
      (Or.inr (Or.inr (Or.inr ⟨by norm_num, by norm_num⟩)))
  · exact (hiff _ _ _ _ _ _).mpr (Or.inr (Or.inl ⟨0, rfl, by norm_num⟩))

/-! ## Claim C3: entity cache TTL semantics -/

/-- C3: for an entity stored in the entity cache, a lookup whose age
`now - cached_at` is at most `max_age_hours` returns the stored payload (and
leaves the store untouched); a lookup whose age exceeds `max_age_hours`
returns `None` AND deletes the entry, so the key is absent afterwards and a
subsequent `clear_expired_cache` count only ever counts entries of OTHER
keys. -/
theorem c3_entity_cache_ttl {α β : Type} (store : HotelStore α β)
    (key : HotelKey) (e : HotelCacheEntry α β) (now max_age_hours : ℚ)
    (h : findEntry store key = some e) :
    (now - e.cached_at ≤ max_age_hours →
      get_cached_hotel_data store key now max_age_hours
        = (some (e.property_listing, e.hotel_details), store))
  ∧ (max_age_hours < now - e.cached_at →
      (get_cached_hotel_data store key now max_age_hours).1 = none
      ∧ findEntry (get_cached_hotel_data store key now max_age_hours).2 key
          = none
      ∧ ∀ now2 maxAge2 : ℚ,
          (clear_expired_cache
              (get_cached_hotel_data store key now max_age_hours).2
              now2 maxAge2).1
            = (store.filter (fun p =>
                decide (p.2.cached_at < now2 - maxAge2)
                  && decide (p.1 ≠ key))).length) := by
  obtain ⟨pr, hfind, hpr⟩ := Option.map_eq_some'.mp h
  have hred : get_cached_hotel_data store key now max_age_hours
      = if now - pr.2.cached_at > max_age_hours
        then (none, store.filter (fun p => decide (p.1 ≠ key)))
        else (some (pr.2.property_listing, pr.2.hotel_details), store) := by
    unfold get_cached_hotel_data
    rw [hfind]
  constructor
  · intro hfresh
    rw [hred, if_neg (by rw [hpr]; exact not_lt.mpr hfresh), hpr]
  · intro hexp
    have hgoal : get_cached_hotel_data store key now max_age_hours
        = (none, store.filter (fun p => decide (p.1 ≠ key))) := by
      rw [hred, if_pos (by rw [hpr]; exact hexp)]
    refine ⟨by rw [hgoal], ?_, ?_⟩
    · rw [hgoal]
      unfold findEntry
      rw [Option.map_eq_none']
      rw [List.find?_eq_none]
      intro x hx
      have hxne : decide (x.1 ≠ key) = true := (List.mem_filter.mp hx).2
      simp only [decide_eq_true_eq] at hxne ⊢
      exact fun hc => hxne hc
    · intro now2 maxAge2
      rw [hgoal]
      unfold clear_expired_cache
      simp only [List.filter_filter]

/-- C3 witness: a single cached entry written at hour 0, looked up at hour 25
with a 24-hour TTL, is expired: the lookup returns nothing. -/
theorem c3_entity_cache_ttl_witness :
    (24 : ℚ) < 25 - 0
  ∧ (get_cached_hotel_data
      [((⟨"grand oriental hotel", 2, 1⟩ : HotelKey),
        (⟨0, "listing", "details"⟩ : HotelCacheEntry String String))]
      ⟨"grand oriental hotel", 2, 1⟩ 25 24).1 = none :=
  ⟨by norm_num,
   ((c3_entity_cache_ttl
      [((⟨"grand oriental hotel", 2, 1⟩ : HotelKey),
        (⟨0, "listing", "details"⟩ : HotelCacheEntry String String))]
      ⟨"grand oriental hotel", 2, 1⟩ ⟨0, "listing", "details"⟩ 25 24
      rfl).2 (by norm_num)).1⟩

/-! ## Claim C7: the semaphore bounds in-flight tasks -/

theorem countP_replicate_aux (p : TaskPhase → Bool) (a : TaskPhase) :
    ∀ n : ℕ, (List.replicate n a).countP p = if p a then n else 0 := by
  intro n
  induction n with
  | zero => simp
  | succ k ih =>
    rw [List.replicate_succ, List.countP_cons, ih]
    by_cases h : p a <;> simp [h]

theorem countP_set_exchange {α : Type} (p : α → Bool) :
    ∀ (l : List α) (i : ℕ) (x : α) (a : α), l.get? i = some x →
      (l.set i a).countP p + (if p x then 1 else 0)
        = l.countP p + (if p a then 1 else 0) := by
  intro l
  induction l with
  | nil => intro i x a h; simp at h
  | cons hd tl ih =>
    intro i x a h
    cases i with
    | zero =>
      have hx : hd = x := by
        simpa using h
      subst hx
      simp only [List.set, List.countP_cons]
      by_cases hpa : p a <;> by_cases hph : p hd <;> simp [hpa, hph]
    | succ n =>
      have h2 : tl.get? n = some x := by
        simpa using h
      simp only [List.set, List.countP_cons]
      have := ih n x a h2
      by_cases hph : p hd <;> simp [hph] <;> omega

/-- One scheduler step preserves the permit-accounting invariant. -/
theorem pool_step_preserves (m : ℕ) (s1 s2 : PoolState)
    (hstep : PoolStep s1 s2) (h : inFlight s1 + s1.avail = m) :
    inFlight s2 + s2.avail = m := by
  cases hstep with
  | acquire i hget ha =>
    have hcount := countP_set_exchange
      (fun p => decide (p = TaskPhase.running)) s1.phases i TaskPhase.pending
      TaskPhase.running hget
    unfold inFlight at h ⊢
    dsimp only at h ⊢
    simp at hcount
    omega
  | release i hget =>
    have hcount := countP_set_exchange
      (fun p => decide (p = TaskPhase.running)) s1.phases i TaskPhase.running
      TaskPhase.done hget
    unfold inFlight at h ⊢
    dsimp only at h ⊢
    simp at hcount
    omega

/-- The semaphore invariant: along every reachable state, the number of
in-flight tasks plus the free permits equals `max_concurrent`. -/
theorem pool_invariant (numTasks max_concurrent : ℕ) (s : PoolState)
    (h : Relation.ReflTransGen PoolStep (initPool numTasks max_concurrent) s) :
    inFlight s + s.avail = max_concurrent := by
  induction h with
  | refl =>
    simp [initPool, inFlight, countP_replicate_aux]
  | tail _ hstep ih =>
    exact pool_step_preserves _ _ _ hstep ih

/-- C7: at every moment of a run of the bounded-concurrency orchestrator —
that is, in every state the scheduler can reach from the initial state, for
any number of submitted tasks — the number of simultaneously in-flight fetch
tasks never exceeds the `max_concurrent` bound. -/
theorem c7_semaphore_bound (numTasks max_concurrent : ℕ) (s : PoolState)
    (h : Relation.ReflTransGen PoolStep (initPool numTasks max_concurrent) s) :
    inFlight s ≤ max_concurrent := by
  have := pool_invariant numTasks max_concurrent s h
  omega

/-- C7 witness: with 10 tasks and `max_concurrent = 2`, the state after the
scheduler lets task 0 acquire the semaphore is reachable, and its in-flight
count obeys the bound. -/
theorem c7_semaphore_bound_witness :
    inFlight ⟨(List.replicate 10 TaskPhase.pending).set 0 TaskPhase.running, 1⟩
      ≤ 2 :=
  c7_semaphore_bound 10 2 _
    (Relation.ReflTransGen.single
      (PoolStep.acquire (initPool 10 2) 0 rfl (by decide)))

/-! ## Claim C8: distance parsing -/

set_option maxHeartbeats 1000000 in
/-- C8 counterexample: the claim says the magnitude is returned UNCHANGED when
a km marker is present, but `parse_distance_km` has no km check at all — it
divides by 1000 whenever `" m"` occurs as a substring.  In
`"3.2 km from main beach"` the `" m"` of `" main"` triggers the division even
though the text matches the km marker, so the code returns `0.0032`, not the
claimed `3.2`. -/
theorem c8_counterexample_km_text_divided :
    claimKmMarker (pyStrip (("3.2 km from main beach".toList).map toLowerChar))
      = true
  ∧ extract_float_value
      (some (pyStrip (("3.2 km from main beach".toList).map toLowerChar)))
      = some (16/5)
  ∧ parse_distance_km (some ("3.2 km from main beach".toList)) = some (2/625)
  ∧ (2/625 : ℚ) ≠ 16/5 := by
  refine ⟨rfl, ?_, ?_, by norm_num⟩
  · have h : extract_float_value
        (some (pyStrip (("3.2 km from main beach".toList).map toLowerChar)))
        = some (((3 : ℕ) : ℚ) + ((2 : ℕ) : ℚ) / (10 : ℚ) ^ (1 : ℕ)) := rfl
    rw [h, Option.some_inj]
    norm_num
  · have h : parse_distance_km (some ("3.2 km from main beach".toList))
        = some ((((3 : ℕ) : ℚ) + ((2 : ℕ) : ℚ) / (10 : ℚ) ^ (1 : ℕ)) / 1000) :=
      rfl
    rw [h, Option.some_inj]
    norm_num

set_option maxHeartbeats 1000000 in
/-- C8 amended: `parse_distance_km` maps `None` and the empty string to
`None`; any non-empty text whose lowered, stripped form contains
`"beachfront"` to `0.0`; any other text with no recoverable number to `None`;
and otherwise divides the extracted magnitude by 1000 exactly when the
lowered text contains the substring `" m"` or `" meters"` — with NO exclusion
for km-denominated text.  In particular `"2.8 km from downtown"` gives `2.8`,
`"350 m from beach"` gives `0.35`, `"Beachfront"` gives `0.0` and
`"no number here"` gives `None`. -/
theorem parse_distance_km_cons (c : Char) (t : List Char) :
    parse_distance_km (some (c :: t))
      = (if containsSub "beachfront".toList (pyStrip ((c :: t).map toLowerChar))
         then some 0
         else
           match extract_float_value
               (some (pyStrip ((c :: t).map toLowerChar))) with
           | none => none
           | some value =>
             if mUnitMarker (pyStrip ((c :: t).map toLowerChar))
             then some (value / 1000) else some value) := rfl

set_option maxHeartbeats 1000000 in
theorem c8_amended_distance_parsing :
    parse_distance_km none = none
  ∧ parse_distance_km (some []) = none
  ∧ (∀ s : List Char, s ≠ [] →
      containsSub "beachfront".toList (pyStrip (s.map toLowerChar)) = true →
      parse_distance_km (some s) = some 0)
  ∧ (∀ (s : List Char) (v : ℚ), s ≠ [] →
      containsSub "beachfront".toList (pyStrip (s.map toLowerChar)) = false →
      extract_float_value (some (pyStrip (s.map toLowerChar))) = some v →
      parse_distance_km (some s)
        = some (if mUnitMarker (pyStrip (s.map toLowerChar)) then v / 1000
            else v))
  ∧ (∀ s : List Char, s ≠ [] →
      containsSub "beachfront".toList (pyStrip (s.map toLowerChar)) = false →
      extract_float_value (some (pyStrip (s.map toLowerChar))) = none →
      parse_distance_km (some s) = none)
  ∧ parse_distance_km (some "2.8 km from downtown".toList) = some (14/5)
  ∧ parse_distance_km (some "350 m from beach".toList) = some (7/20)
  ∧ parse_distance_km (some "Beachfront".toList) = some 0
  ∧ parse_distance_km (some "no number here".toList) = none := by
  refine ⟨rfl, rfl, ?_, ?_, ?_, ?_, ?_, rfl, rfl⟩
  · intro s hne hbf
    cases s with
    | nil => exact absurd rfl hne
    | cons c t =>
      rw [parse_distance_km_cons, if_pos hbf]
  · intro s v hne hbf hval
    cases s with
    | nil => exact absurd rfl hne
    | cons c t =>
      rw [parse_distance_km_cons,
        if_neg (fun hc => Bool.noConfusion (hbf.symm.trans hc)), hval]
      cases hm : mUnitMarker (pyStrip ((c :: t).map toLowerChar)) <;> simp [hm]
  · intro s hne hbf hval
    cases s with
    | nil => exact absurd rfl hne
    | cons c t =>
      rw [parse_distance_km_cons,
        if_neg (fun hc => Bool.noConfusion (hbf.symm.trans hc)), hval]
  · have h : parse_distance_km (some "2.8 km from downtown".toList)
        = some (((2 : ℕ) : ℚ) + ((8 : ℕ) : ℚ) / (10 : ℚ) ^ (1 : ℕ)) := rfl
    rw [h, Option.some_inj]
    norm_num
  · have h : parse_distance_km (some "350 m from beach".toList)
        = some (((350 : ℕ) : ℚ) / 1000) := rfl
    rw [h, Option.some_inj]
    norm_num

/-! ## Claim C1: decimal/thousands separator disambiguation -/

set_option maxHeartbeats 1000000 in
/-- C1: on the matched numeric literal (spaces removed), when both `.` and `,`
occur, the later-occurring separator becomes the decimal point and every
occurrence of the earlier one is deleted; when only one separator occurs, it
is kept as the decimal point iff at most two characters follow its last
occurrence, and otherwise all its occurrences are stripped as thousands
grouping.  End to end: `"1,234.56" ↦ 1234.56`, `"1.234,56" ↦ 1234.56`,
`"45" ↦ 45`, `"3 500" ↦ 3500`, and `"1.234" ↦ 1234` (not `1.234`). -/
theorem c1_separator_disambiguation :
    (∀ (cs : List Char) (ld lc : ℕ),
      pyRfind cs '.' = some ld → pyRfind cs ',' = some lc →
      processNumber cs
        = (cs.filter (fun c => decide (c ≠ (if ld < lc then '.' else ',')))).map
            (fun c => if c = (if ld < lc then ',' else '.') then '.' else c))
  ∧ (∀ (cs : List Char) (ld : ℕ),
      pyRfind cs '.' = some ld → pyRfind cs ',' = none →
      processNumber cs
        = if cs.length - 1 - ld ≤ 2 then cs
          else cs.filter (fun c => decide (c ≠ '.')))
  ∧ (∀ (cs : List Char) (lc : ℕ),
      pyRfind cs '.' = none → pyRfind cs ',' = some lc →
      processNumber cs
        = if cs.length - 1 - lc ≤ 2 then
            cs.map (fun c => if c = ',' then '.' else c)
          else cs.filter (fun c => decide (c ≠ ',')))
  ∧ extract_price_components (some "1,234.56".toList) = (some (30864/25), [])
  ∧ extract_price_components (some "1.234,56".toList) = (some (30864/25), [])
  ∧ extract_price_components (some "45".toList) = (some 45, [])
  ∧ extract_price_components (some "3 500".toList) = (some 3500, [])
  ∧ extract_price_components (some "1.234".toList) = (some 1234, [])
    := by
  refine ⟨?_, ?_, ?_, ?_, ?_, ?_, ?_, ?_⟩
  · intro cs ld lc hld hlc
    unfold processNumber
    rw [hld, hlc]
    by_cases hc : ld < lc
    · simp only [gt_iff_lt, if_pos hc]
      rfl
    · simp only [gt_iff_lt, if_neg hc]
      rw [map_subst_self]
      rfl
  · intro cs ld hld hlc
    unfold processNumber
    rw [hld, hlc]
    rfl
  · intro cs lc hld hlc
    unfold processNumber
    rw [hld, hlc]
    rfl
  · have h : extract_price_components (some "1,234.56".toList)
        = (some (((1234 : ℕ) : ℚ) + ((56 : ℕ) : ℚ) / (10 : ℚ) ^ (2 : ℕ)), []) :=
      rfl
    rw [h, Prod.mk.injEq, Option.some_inj]
    exact ⟨by norm_num, rfl⟩
  · have h : extract_price_components (some "1.234,56".toList)
        = (some (((1234 : ℕ) : ℚ) + ((56 : ℕ) : ℚ) / (10 : ℚ) ^ (2 : ℕ)), []) :=
      rfl
    rw [h, Prod.mk.injEq, Option.some_inj]
    exact ⟨by norm_num, rfl⟩
  · have h : extract_price_components (some "45".toList)
        = (some ((45 : ℕ) : ℚ), []) := rfl
    rw [h, Prod.mk.injEq, Option.some_inj]
    exact ⟨by norm_num, rfl⟩
  · have h : extract_price_components (some "3 500".toList)
        = (some ((3500 : ℕ) : ℚ), []) := rfl
    rw [h, Prod.mk.injEq, Option.some_inj]
    exact ⟨by norm_num, rfl⟩
  · have h : extract_price_components (some "1.234".toList)
        = (some ((1234 : ℕ) : ℚ), []) := rfl
    rw [h, Prod.mk.injEq, Option.some_inj]
    exact ⟨by norm_num, rfl⟩

end EzRent
